import Mathlib

/-!
Shallow embedding of the vendor-panel data-access layer: the shipping-profile
query-key factory, the data-access hooks (list, get-one, create, update,
delete), the route loader, the inventory list table's error propagation, and
the edit-store form's submit handler.

Modelling conventions:
* JS plain objects used as query parameters or payloads are association lists
  of string pairs; value equality of keys is structural equality.
* The external cache store (the query library) is modelled by the operations
  the spec describes at the cache-store boundary: prefix-matching
  invalidation marking entries stale, and fetch-or-reuse for loaders.
* `useMutation` receives a config object built by a JS object literal with a
  trailing spread of the caller's options; the spread semantics (later keys
  override earlier ones) is modelled explicitly, since the hooks write
  `{ mutationFn, onSuccess, ...options }`.
-/

/-- A JS plain object of query parameters (or a payload), as an association
list of string keys to string values. -/
abbrev Query := List (String × String)

/-- One element of a cache key: either a string literal or a serialized
parameter object. -/
inductive KeyPart where
  | str : String → KeyPart
  | obj : Query → KeyPart
  deriving DecidableEq, Repr

/-- A cache key: an ordered sequence of parts, first element the resource
tag. -/
abbrev QueryKey := List KeyPart

/-- The value returned by `queryKeysFactory tag`: a record whose methods
build the hierarchical keys for one resource tag. -/
structure QueryKeys where
  tag : String
  deriving DecidableEq, Repr

/-- Modelled from the spec: `queryKeysFactory` lives in
`lib/query-key-factory`, which is imported by the hooks file but is not under
`src/`; the spec gives its contract in §4.1. `all` → `[tag]`. -/
def QueryKeys.all (k : QueryKeys) : QueryKey :=
  [KeyPart.str k.tag]

/-- Modelled from the spec: `lists()` → `[tag, "list"]`. -/
def QueryKeys.lists (k : QueryKeys) : QueryKey :=
  [KeyPart.str k.tag, KeyPart.str "list"]

/-- Modelled from the spec: `list(query?)` → `[tag, "list", query]`, the
query element omitted when the argument is undefined. -/
def QueryKeys.list (k : QueryKeys) (q : Option Query) : QueryKey :=
  k.lists ++ (match q with
    | none => []
    | some qq => [KeyPart.obj qq])

/-- Modelled from the spec: `details()` → `[tag, "detail"]`. -/
def QueryKeys.details (k : QueryKeys) : QueryKey :=
  [KeyPart.str k.tag, KeyPart.str "detail"]

/-- Modelled from the spec: `detail(id, query?)` → `[tag, "detail", id,
query]`, the query element omitted when the argument is undefined. -/
def QueryKeys.detail (k : QueryKeys) (id : String) (q : Option Query) : QueryKey :=
  k.details ++ [KeyPart.str id] ++ (match q with
    | none => []
    | some qq => [KeyPart.obj qq])

/-- Modelled from the spec: the factory itself. -/
def queryKeysFactory (tag : String) : QueryKeys :=
  ⟨tag⟩

/-- `shippingProfileQueryKeys = queryKeysFactory('shipping_profile')`. -/
def shippingProfileQueryKeys : QueryKeys :=
  queryKeysFactory "shipping_profile"

/-- Prefix matching used by the cache store's invalidation: a filter key
matches every cached key it is an array-prefix of (the spec's cache-store
boundary: "invalidate queries matching key prefix"). -/
def keyMatches : QueryKey → QueryKey → Bool
  | [], _ => true
  | _ :: _, [] => false
  | a :: as, b :: bs => if a = b then keyMatches as bs else false

/-- A cached entry: its key and whether it has been marked stale. -/
structure CacheEntry where
  key : QueryKey
  stale : Bool
  deriving DecidableEq, Repr

/-- Invalidation of a single entry: mark it stale when the filter key
prefix-matches its key, otherwise leave it unchanged. -/
def invalidateEntry (k : QueryKey) (e : CacheEntry) : CacheEntry :=
  if keyMatches k e.key then ⟨e.key, true⟩ else e

/-- `queryClient.invalidateQueries({queryKey})`: mark every matching entry of
the cache stale. -/
def invalidateQueries (k : QueryKey) (c : List CacheEntry) : List CacheEntry :=
  c.map (invalidateEntry k)

/-- Run a sequence of invalidation calls on one entry. -/
def runEntry (ks : List QueryKey) (e : CacheEntry) : CacheEntry :=
  ks.foldl (fun e k => invalidateEntry k e) e

/-- Run a sequence of invalidation calls on the whole cache. -/
def runInvalidations (ks : List QueryKey) (c : List CacheEntry) : List CacheEntry :=
  ks.foldl (fun c k => invalidateQueries k c) c

/-- HTTP method of a request issued through `fetchQuery`. -/
inductive HttpMethod where
  | GET
  | POST
  | DELETE
  deriving DecidableEq, Repr

/-- The argument pair of a `fetchQuery` call: templated path, method,
optional query-parameter object, optional body payload. -/
structure FetchRequest where
  path : String
  method : HttpMethod
  query : Option Query
  body : Option Query
  deriving DecidableEq, Repr

/-- A success handler that can sit in a mutation config's `onSuccess` slot:
either one of the hooks' inline handlers (which invalidates the listed keys
and then calls `options?.onSuccess?.(...)`), or an opaque caller-supplied
callback (which performs no invalidation of its own). -/
inductive SuccessHandler where
  | hookHandler : List QueryKey → SuccessHandler
  | callerHandler : Nat → SuccessHandler
  deriving DecidableEq, Repr

/-- The caller's `UseMutationOptions` argument, as far as the success path is
concerned: `onSuccess` is `some` exactly when the options object carries an
`onSuccess` function; the function itself is opaque to the hook and is
identified by a number. -/
structure MutationOptions where
  onSuccess : Option Nat
  deriving DecidableEq, Repr

/-- The config object handed to `useMutation`, restricted to the fields the
claims are about. -/
structure MutationConfig (π : Type) where
  mutationFn : π → FetchRequest
  onSuccess : Option SuccessHandler

/-- JS object-literal semantics of `{ mutationFn, onSuccess, ...options }`:
the trailing spread copies the caller's own keys last, so a caller-provided
`onSuccess` overrides the inline handler; an absent options object or an
options object without `onSuccess` leaves the inline handler in place. -/
def spreadOptions (base : MutationConfig π) (options : Option MutationOptions) :
    MutationConfig π :=
  match options with
  | none => base
  | some o =>
    match o.onSuccess with
    | none => base
    | some cb => { base with onSuccess := some (SuccessHandler.callerHandler cb) }

/-- The keys the effective `onSuccess` passes to `invalidateQueries` when the
network call succeeds. -/
def SuccessHandler.invalidations : SuccessHandler → List QueryKey
  | .hookHandler ks => ks
  | .callerHandler _ => []

/-- The invalidation calls a mutation config performs on success. -/
def MutationConfig.invalidationsOnSuccess (c : MutationConfig π) : List QueryKey :=
  match c.onSuccess with
  | none => []
  | some h => h.invalidations

/-- `useCreateShippingProfile(options?)`: POST to
`/vendor/shipping-profiles`; inline handler invalidates `lists()` and then
calls `options?.onSuccess?.(...)`; the options are spread last. -/
def useCreateShippingProfile (options : Option MutationOptions) :
    MutationConfig Query :=
  spreadOptions
    { mutationFn := fun payload =>
        ⟨"/vendor/shipping-profiles", HttpMethod.POST, none, some payload⟩,
      onSuccess := some (SuccessHandler.hookHandler
        [shippingProfileQueryKeys.lists]) }
    options

/-- `useUpdateShippingProfile(id, options?)`: POST to
`/vendor/shipping-profiles/${id}`; inline handler invalidates `detail(id)`
then `lists()`; the options are spread last. -/
def useUpdateShippingProfile (id : String) (options : Option MutationOptions) :
    MutationConfig Query :=
  spreadOptions
    { mutationFn := fun payload =>
        ⟨"/vendor/shipping-profiles/" ++ id, HttpMethod.POST, none, some payload⟩,
      onSuccess := some (SuccessHandler.hookHandler
        [shippingProfileQueryKeys.detail id none, shippingProfileQueryKeys.lists]) }
    options

/-- `useDeleteShippingProfile(id, options?)`: DELETE to
`/vendor/shipping-profiles/${id}`; inline handler invalidates `detail(id)`
then `lists()`; the options are spread last. -/
def useDeleteShippingProfile (id : String) (options : Option MutationOptions) :
    MutationConfig Unit :=
  spreadOptions
    { mutationFn := fun _ =>
        ⟨"/vendor/shipping-profiles/" ++ id, HttpMethod.DELETE, none, none⟩,
      onSuccess := some (SuccessHandler.hookHandler
        [shippingProfileQueryKeys.detail id none, shippingProfileQueryKeys.lists]) }
    options

/-- The key/fetch pair a read hook hands to `useQuery` (or a loader hands to
`ensureQueryData`). -/
structure QueryConfig where
  queryKey : QueryKey
  request : FetchRequest
  deriving DecidableEq, Repr

/-- `useShippingProfile(id, query?)`: key `detail(id, query)`, GET to
`/vendor/shipping-profiles/${id}` carrying `query`. -/
def useShippingProfile (id : String) (query : Option Query) : QueryConfig :=
  { queryKey := shippingProfileQueryKeys.detail id query,
    request := ⟨"/vendor/shipping-profiles/" ++ id, HttpMethod.GET, query, none⟩ }

/-- `useShippingProfiles(query?)`: key `list(query)`; the `queryFn` calls
`fetchQuery('/vendor/shipping-profiles', {method:'GET'})`, passing no query
object. -/
def useShippingProfiles (query : Option Query) : QueryConfig :=
  { queryKey := shippingProfileQueryKeys.list query,
    request := ⟨"/vendor/shipping-profiles", HttpMethod.GET, none, none⟩ }

/-- `shippingProfileQuery(id)`: the key/fetch pair the loader builds, key
`detail(id)`, GET to `/vendor/shipping-profiles/${id}` with no query. -/
def shippingProfileQuery (id : String) : QueryConfig :=
  { queryKey := shippingProfileQueryKeys.detail id none,
    request := ⟨"/vendor/shipping-profiles/" ++ id, HttpMethod.GET, none, none⟩ }

/-- `shippingProfileLoader`: extracts the id from the route params and hands
`shippingProfileQuery(id)` to `queryClient.ensureQueryData`. -/
def shippingProfileLoader (shipping_profile_id : String) : QueryConfig :=
  shippingProfileQuery shipping_profile_id

/-- A typed fetch error: HTTP status and message. -/
structure FetchError where
  status : Nat
  message : String
  deriving DecidableEq, Repr

/-- Modelled from the spec: the external query library's result for a read
hook — on a successful fetch it holds the data, on failure it exposes the
`isError`/`error` pair ("network or server failure surfaces as a typed fetch
error ... the hook ... propagates the error to the caller"). -/
structure QueryResult (α : Type) where
  data : Option α
  isError : Bool
  error : Option FetchError
  deriving DecidableEq, Repr

/-- Modelled from the spec: how a fetch outcome becomes the query state a
read hook returns. -/
def useQuery (outcome : Except FetchError α) : QueryResult α :=
  match outcome with
  | .ok a => ⟨some a, false, none⟩
  | .error e => ⟨none, true, some e⟩

/-- The page of records a list endpoint returns: rows (here just their ids)
plus a total count. -/
structure InventoryListData where
  inventory_items : List String
  count : Nat
  deriving DecidableEq, Repr

/-- What `useInventoryItems` returns to the component: the response fields
spread together with the query status. -/
structure InventoryItemsResult where
  inventory_items : Option (List String)
  count : Option Nat
  isError : Bool
  error : Option FetchError
  deriving DecidableEq, Repr

/-- Modelled from the spec: `useInventoryItems` (hooks/api/inventory, not
under `src/`) is a list hook of the uniform shape — it wraps the query and
returns the response fields together with the `isError`/`error` pair,
swallowing nothing. -/
def useInventoryItems (outcome : Except FetchError InventoryListData) :
    InventoryItemsResult :=
  let r := useQuery outcome
  { inventory_items := r.data.map (fun d => d.inventory_items),
    count := r.data.map (fun d => d.count),
    isError := r.isError,
    error := r.error }

/-- What rendering the inventory list table produces: either the error is
thrown to the error boundary, or the table renders its rows. -/
inductive RenderOutcome where
  | threw : Option FetchError → RenderOutcome
  | rendered : List String → RenderOutcome
  deriving DecidableEq, Repr

/-- `InventoryListTable`: calls `useInventoryItems`, and
`if (isError) throw error` before rendering; otherwise renders the rows
(`inventory_items ?? []`). -/
def InventoryListTable (outcome : Except FetchError InventoryListData) :
    RenderOutcome :=
  let res := useInventoryItems outcome
  if res.isError then RenderOutcome.threw res.error
  else RenderOutcome.rendered (res.inventory_items.getD [])

/-- A file object carrying the URL the upload produced (the only field the
submit handler reads). -/
structure UploadedFile where
  url : String
  deriving DecidableEq, Repr

/-- The seller record the edit-store form starts from; optional fields model
JS fields that may be undefined. -/
structure StoreVendor where
  name : String
  description : Option String
  phone : Option String
  email : Option String
  photo : Option String
  deriving DecidableEq, Repr

/-- The validated form values the submit callback receives; `media` is the
selected (not yet uploaded) files. -/
structure EditStoreValues where
  name : String
  description : Option String
  phone : Option String
  email : Option String
  media : List UploadedFile
  deriving DecidableEq, Repr

/-- The payload handed to the update-me mutation. -/
structure UpdateMePayload where
  name : String
  email : Option String
  phone : Option String
  description : Option String
  photo : String
  deriving DecidableEq, Repr

/-- A toast notification shown to the user. -/
inductive Toast where
  | errorToast : String → Toast
  | successToast : String → Toast
  deriving DecidableEq, Repr

/-- What the submit handler did up to dispatching the mutation: the toasts
shown while handling the upload, and the payload sent to `mutateAsync`. -/
structure SubmitResult where
  toasts : List Toast
  mutationSent : Option UpdateMePayload
  deriving DecidableEq, Repr

/-- JS `a || b` on an optional string, where `undefined` and the empty
string are falsy. -/
def jsOr (a : Option String) (b : String) : String :=
  match a with
  | some s => if s = "" then b else s
  | none => b

/-- The edit-store form's submit handler: when media was selected, run the
upload inside `try`; a thrown error is caught locally and shown via
`toast.error`, leaving `uploadedMedia` empty. `mutateAsync` is then always
called, with `photo: uploadedMedia[0]?.url || seller.photo || ''`. -/
def handleSubmit (seller : StoreVendor) (values : EditStoreValues)
    (uploadOutcome : Except FetchError (List UploadedFile)) : SubmitResult :=
  let up : List UploadedFile × List Toast :=
    if values.media.isEmpty then ([], [])
    else
      match uploadOutcome with
      | .ok files => (files, [])
      | .error e => ([], [Toast.errorToast e.message])
  { toasts := up.2,
    mutationSent := some
      { name := values.name,
        email := values.email,
        phone := values.phone,
        description := values.description,
        photo := jsOr ((up.1.head?).map UploadedFile.url) (jsOr seller.photo "") } }

/-- A run of invalidation calls acts on the cache entrywise: running them on
the whole cache is mapping the entry-level run over it. -/
theorem runInvalidations_map (ks : List QueryKey) (c : List CacheEntry) :
    runInvalidations ks c = c.map (runEntry ks) := by
  induction ks generalizing c with
  | nil =>
    have h0 : runEntry ([] : List QueryKey) = fun e => e := rfl
    simp [runInvalidations, h0]
  | cons k ks ih =>
    have h1 : runInvalidations (k :: ks) c =
        runInvalidations ks (invalidateQueries k c) := rfl
    rw [h1, ih, invalidateQueries, List.map_map]
    rfl

/-- C1: the claim fails on the code. `useCreateShippingProfile` spreads the
caller's options after its inline `onSuccess`, so an options argument that
carries an `onSuccess` callback replaces the handler that invalidates
`lists()`: at that input the hook performs no invalidation at all and a
cached list entry stays fresh, while with no caller `onSuccess` the hook
does invalidate exactly `lists()`. -/
theorem create_invalidation_overridden_by_caller_onSuccess :
    (useCreateShippingProfile (some ⟨some 0⟩)).invalidationsOnSuccess = [] ∧
    runInvalidations
        (useCreateShippingProfile (some ⟨some 0⟩)).invalidationsOnSuccess
        [⟨shippingProfileQueryKeys.list (some [("limit", "10")]), false⟩] =
      [⟨shippingProfileQueryKeys.list (some [("limit", "10")]), false⟩] ∧
    (useCreateShippingProfile none).invalidationsOnSuccess =
      [shippingProfileQueryKeys.lists] :=
  ⟨rfl, rfl, rfl⟩

/-- C2: the claim fails on the code. Both `useUpdateShippingProfile` and
`useDeleteShippingProfile` spread the caller's options after their inline
`onSuccess`, so an options argument carrying an `onSuccess` callback
replaces the handler: at that input neither `detail(id)` nor `lists()` is
invalidated, while with no caller `onSuccess` both hooks invalidate exactly
`detail(id)` then `lists()`. -/
theorem update_delete_invalidation_overridden_by_caller_onSuccess :
    (useUpdateShippingProfile "sp_1" (some ⟨some 0⟩)).invalidationsOnSuccess = [] ∧
    (useDeleteShippingProfile "sp_1" (some ⟨some 0⟩)).invalidationsOnSuccess = [] ∧
    (useUpdateShippingProfile "sp_1" none).invalidationsOnSuccess =
      [shippingProfileQueryKeys.detail "sp_1" none, shippingProfileQueryKeys.lists] ∧
    (useDeleteShippingProfile "sp_1" none).invalidationsOnSuccess =
      [shippingProfileQueryKeys.detail "sp_1" none, shippingProfileQueryKeys.lists] :=
  ⟨rfl, rfl, rfl, rfl⟩

/-- C3: the claim fails on the code. `useShippingProfiles` keys the cache by
`list(query)` but its `queryFn` calls `fetchQuery` without the query object:
at a concrete non-empty query the issued request carries no
query-parameter object at all. -/
theorem list_hook_request_drops_query :
    useShippingProfiles (some [("limit", "10")]) =
      ⟨shippingProfileQueryKeys.list (some [("limit", "10")]),
        ⟨"/vendor/shipping-profiles", HttpMethod.GET, none, none⟩⟩ ∧
    (useShippingProfiles (some [("limit", "10")])).request.query = none :=
  ⟨rfl, rfl⟩

/-- C4: for every route id, the loader's key/fetch pair coincides with the
one `useShippingProfile` builds for that id (called without a query
refinement), so the cache entry the loader warms is the one the hook reads. -/
theorem shippingProfileLoader_matches_get_one_hook :
    ∀ id : String, shippingProfileLoader id = useShippingProfile id none :=
  fun _ => rfl

/-- C5: for every resource tag, query and id, `lists()` is a strict
array-prefix of `list(q)` and `details()` is a strict array-prefix of
`detail(id, q)`, and the invalidation matcher therefore matches the
parameterized keys. -/
theorem factory_keys_strict_hierarchy :
    ∀ (tag id : String) (q : Query),
      ((queryKeysFactory tag).lists <+: (queryKeysFactory tag).list (some q)) ∧
      keyMatches (queryKeysFactory tag).lists
        ((queryKeysFactory tag).list (some q)) = true ∧
      (queryKeysFactory tag).lists ≠ (queryKeysFactory tag).list (some q) ∧
      ((queryKeysFactory tag).details <+: (queryKeysFactory tag).detail id (some q)) ∧
      keyMatches (queryKeysFactory tag).details
        ((queryKeysFactory tag).detail id (some q)) = true ∧
      (queryKeysFactory tag).details ≠ (queryKeysFactory tag).detail id (some q) := by
  intro tag id q
  refine ⟨⟨[KeyPart.obj q], rfl⟩, ?_, ?_, ⟨[KeyPart.str id, KeyPart.obj q], rfl⟩, ?_, ?_⟩
  · simp [keyMatches, QueryKeys.lists, QueryKeys.list]
  · intro h
    simpa [QueryKeys.lists, QueryKeys.list] using congrArg List.length h
  · simp [keyMatches, QueryKeys.details, QueryKeys.detail]
  · intro h
    simpa [QueryKeys.details, QueryKeys.detail] using congrArg List.length h

/-- C6: `list` keys disambiguate and are value-stable: two query objects
produce the same `list` key exactly when they are structurally equal, so
distinct queries give distinct keys and structurally identical queries give
value-equal keys. -/
theorem list_key_injective_and_idempotent :
    ∀ q1 q2 : Query,
      shippingProfileQueryKeys.list (some q1) =
        shippingProfileQueryKeys.list (some q2) ↔ q1 = q2 := by
  intro q1 q2
  constructor
  · intro h
    simpa [QueryKeys.list, QueryKeys.lists, shippingProfileQueryKeys,
      queryKeysFactory] using h
  · intro h
    rw [h]

/-- C7: after a successful update for id `x`, whatever options the caller
passed, a cached entry keyed `detail(y, q)` for any `y ≠ x` is left
unchanged: the run of invalidation calls acts entrywise on the cache and
maps such an entry to itself. -/
theorem update_success_leaves_other_details_unchanged :
    ∀ (x y : String) (q : Option Query) (opts : Option MutationOptions)
      (st : Bool) (c : List CacheEntry),
      y ≠ x →
      runInvalidations (useUpdateShippingProfile x opts).invalidationsOnSuccess c =
        c.map (runEntry (useUpdateShippingProfile x opts).invalidationsOnSuccess) ∧
      runEntry (useUpdateShippingProfile x opts).invalidationsOnSuccess
          ⟨shippingProfileQueryKeys.detail y q, st⟩ =
        ⟨shippingProfileQueryKeys.detail y q, st⟩ := by
  intro x y q opts st c hyx
  refine ⟨runInvalidations_map _ c, ?_⟩
  have hxy : ¬ (KeyPart.str x = KeyPart.str y) :=
    fun h => hyx (KeyPart.str.inj h).symm
  rcases opts with _ | ⟨_ | cb⟩
  · cases q <;>
      simp [useUpdateShippingProfile, spreadOptions,
        MutationConfig.invalidationsOnSuccess, SuccessHandler.invalidations,
        runEntry, invalidateEntry, keyMatches, QueryKeys.detail,
        QueryKeys.details, QueryKeys.lists, shippingProfileQueryKeys,
        queryKeysFactory, hxy]
  · cases q <;>
      simp [useUpdateShippingProfile, spreadOptions,
        MutationConfig.invalidationsOnSuccess, SuccessHandler.invalidations,
        runEntry, invalidateEntry, keyMatches, QueryKeys.detail,
        QueryKeys.details, QueryKeys.lists, shippingProfileQueryKeys,
        queryKeysFactory, hxy]
  · simp [useUpdateShippingProfile, spreadOptions,
      MutationConfig.invalidationsOnSuccess, SuccessHandler.invalidations,
      runEntry]

/-- Witness for C7 at a concrete input: updating `sp_1` leaves a fresh
cached `detail("sp_2")` entry exactly as it was. -/
theorem update_success_leaves_other_details_unchanged_witness :
    (("sp_2" : String) ≠ "sp_1") ∧
    (runInvalidations (useUpdateShippingProfile "sp_1" none).invalidationsOnSuccess [] =
        List.map (runEntry (useUpdateShippingProfile "sp_1" none).invalidationsOnSuccess) [] ∧
      runEntry (useUpdateShippingProfile "sp_1" none).invalidationsOnSuccess
          ⟨shippingProfileQueryKeys.detail "sp_2" none, false⟩ =
        ⟨shippingProfileQueryKeys.detail "sp_2" none, false⟩) :=
  ⟨by decide,
    update_success_leaves_other_details_unchanged "sp_1" "sp_2" none none false []
      (by decide)⟩

/-- C8: the scenario key: `detail("sp_1", {expand: "a"})` is exactly
`["shipping_profile", "detail", "sp_1", {expand: "a"}]`. -/
theorem shippingProfile_detail_scenario :
    shippingProfileQueryKeys.detail "sp_1" (some [("expand", "a")]) =
      [KeyPart.str "shipping_profile", KeyPart.str "detail", KeyPart.str "sp_1",
        KeyPart.obj [("expand", "a")]] :=
  rfl

/-- C9: a failing fetch is never swallowed: the list hook reports
`isError = true` with the fetch error in `error`, and the inventory list
table re-throws that error to the error boundary instead of rendering. -/
theorem inventory_fetch_error_propagates :
    ∀ e : FetchError,
      (useInventoryItems (Except.error e)).isError = true ∧
      (useInventoryItems (Except.error e)).error = some e ∧
      InventoryListTable (Except.error e) = RenderOutcome.threw (some e) :=
  fun _ => ⟨rfl, rfl, rfl⟩

/-- C10: when media was selected and the upload throws, the submit handler
catches the error locally (one error toast), and still dispatches the update
mutation, with the photo field falling back to the seller's existing photo
or the empty string. -/
theorem editStore_upload_error_caught_and_update_sent :
    ∀ (seller : StoreVendor) (values : EditStoreValues) (e : FetchError),
      values.media ≠ [] →
      (handleSubmit seller values (Except.error e)).toasts =
        [Toast.errorToast e.message] ∧
      (handleSubmit seller values (Except.error e)).mutationSent =
        some ⟨values.name, values.email, values.phone, values.description,
          jsOr seller.photo ""⟩ := by
  intro s v e hm
  have h : v.media.isEmpty = false := by
    cases hv : v.media with
    | nil => exact absurd hv hm
    | cons a l => rfl
  constructor <;> simp [handleSubmit, h, jsOr]

/-- Witness for C10 at a concrete input: with one selected file and a failed
upload, the handler toasts the upload error and still sends the update with
the seller's existing photo. -/
theorem editStore_upload_error_caught_and_update_sent_witness :
    ((EditStoreValues.mk "Store" none none none [⟨"blob:1"⟩]).media ≠ []) ∧
    ((handleSubmit ⟨"Store", none, none, none, some "old.png"⟩
        (EditStoreValues.mk "Store" none none none [⟨"blob:1"⟩])
        (Except.error ⟨500, "upload failed"⟩)).toasts =
        [Toast.errorToast (FetchError.mk 500 "upload failed").message] ∧
      (handleSubmit ⟨"Store", none, none, none, some "old.png"⟩
        (EditStoreValues.mk "Store" none none none [⟨"blob:1"⟩])
        (Except.error ⟨500, "upload failed"⟩)).mutationSent =
        some ⟨"Store", none, none, none, jsOr (some "old.png") ""⟩) :=
  ⟨by decide,
    editStore_upload_error_caught_and_update_sent
      ⟨"Store", none, none, none, some "old.png"⟩
      (EditStoreValues.mk "Store" none none none [⟨"blob:1"⟩])
      ⟨500, "upload failed"⟩ (by decide)⟩
